import Mathlib

set_option autoImplicit false

/-! Shallow embedding of the naija-nutri-hub authentication subsystem
(`main.py`, `auth/service.py`, `auth/mail.py`, `auth/utils.py`).
Timestamps are integers counting seconds since the epoch (UTC).
MongoDB collections are lists of records in insertion order:
`find_one` returns the first match, `update_one` and `delete_one` act
on the first match, `delete_many` removes all matches, `insert_one`
appends, and freshly generated values (`_id`, random OTP codes, reset
tokens) arrive as explicit parameters. -/

/-- Timestamps: seconds since the epoch (UTC). -/
abbrev Time := Int

/-- A document of the `user-auth` collection, as created by
`create_user` in `auth/service.py`; `uid` stands for the Mongo `_id`. -/
structure UserRec where
  uid : Nat
  firstname : String
  lastname : String
  username : String
  email : String
  password_hash : String
  is_verified : Bool
  created_at : Time
  updated_at : Time
  last_used : Time
  deriving Repr, DecidableEq

/-- The dictionary built by `user_serializer` in `auth/service.py`.
Note that it has no `password_hash` key. -/
structure SerializedUser where
  id : Nat
  firstname : String
  lastname : String
  username : String
  email : String
  is_verified : Bool
  created_at : Time
  deriving Repr, DecidableEq

/-- A document of the `otp-data` collection. Signup OTP documents
(inserted by `resend_otp_service`) carry `otp`; password-reset token
documents (inserted by `request_password_reset`) carry `token` and
`rectype = some "PASSWORD_RESET"` (the Mongo field is named `type`).
A field a document does not have is `none`; `oid` stands for the
Mongo `_id`. -/
structure OTPRec where
  oid : Nat
  email : String
  otp : Option String
  token : Option String
  rectype : Option String
  created_at : Time
  expires_at : Option Time
  is_used : Bool
  deriving Repr, DecidableEq

/-- The auth database: the `user-auth` and `otp-data` collections. -/
structure DB where
  users : List UserRec
  otps : List OTPRec
  deriving Repr, DecidableEq

/-- Outcome of a route or service call: a JSON success message, a login
token response, a raised `HTTPException (status, detail)`, or an
uncaught Python exception (its class and the offending key or
argument). -/
inductive Resp where
  | ok (message : String)
  | token (access_token : String)
  | httpError (status : Nat) (detail : String)
  | pyError (kind : String) (detail : String)
  deriving Repr, DecidableEq

/-- Mongo `update_one`: rewrite the first record satisfying `p`. -/
def updateFirst {α : Type} (p : α → Bool) (f : α → α) : List α → List α
  | [] => []
  | x :: xs => if p x then f x :: xs else x :: updateFirst p f xs

/-- Mongo `delete_one`: remove the first record satisfying `p`. -/
def deleteFirst {α : Type} (p : α → Bool) : List α → List α
  | [] => []
  | x :: xs => if p x then xs else x :: deleteFirst p xs

/-- Model of `hash_password` in `auth/utils.py` (bcrypt via passlib),
treated as an opaque injective one-way function. -/
def hash_password (password : String) : String :=
  "bcrypt-sha:" ++ password

/-- Model of `verify_password` in `auth/utils.py`. -/
def verify_password (password hashed : String) : Bool :=
  hash_password password == hashed

/-- `user_serializer` from `auth/service.py`: drops `password_hash`. -/
def user_serializer (u : UserRec) : SerializedUser :=
  { id := u.uid, firstname := u.firstname, lastname := u.lastname,
    username := u.username, email := u.email,
    is_verified := u.is_verified, created_at := u.created_at }

/-- `get_user_via_email` from `auth/service.py`. -/
def get_user_via_email (email : String) (db : DB) : Option SerializedUser :=
  (db.users.find? (fun u => u.email == email)).map user_serializer

/-- `get_user_via_username` from `auth/service.py`. -/
def get_user_via_username (username : String) (db : DB) : Option SerializedUser :=
  (db.users.find? (fun u => u.username == username)).map user_serializer

/-- `user_exists_email` from `auth/service.py`: an exact-match
`count_documents` check on the email string. -/
def user_exists_email (email : String) (db : DB) : Bool :=
  db.users.countP (fun u => u.email == email) > 0

/-- `user_exists_username` from `auth/service.py`. -/
def user_exists_username (username : String) (db : DB) : Bool :=
  db.users.countP (fun u => u.username == username) > 0

/-- `create_user` from `auth/service.py`; the fresh Mongo `_id` arrives
as `nextUid`. -/
def create_user (firstname lastname username email password : String)
    (now : Time) (nextUid : Nat) (db : DB) : SerializedUser × DB :=
  let newU : UserRec :=
    { uid := nextUid, firstname := firstname, lastname := lastname,
      username := username, email := email,
      password_hash := hash_password password, is_verified := false,
      created_at := now, updated_at := now, last_used := now }
  (user_serializer newU, { db with users := db.users ++ [newU] })

/-- The `/sign-up` route `sign_up_user` in `main.py`. -/
def sign_up_user (firstname lastname username email password : String)
    (now : Time) (nextUid : Nat) (db : DB) : Resp × DB :=
  if user_exists_email email db then
    (.httpError 400 "Email already registered", db)
  else if user_exists_username username db then
    (.httpError 400 "Username already taken", db)
  else
    (.ok "User created successfully!",
      (create_user firstname lastname username email password now nextUid db).2)

/-- Minutes before a signup OTP expires, from `verify_user_account` in
`main.py`. -/
def OTP_EXPIRY_MINUTES : Int := 10

/-- The `/verify` route `verify_user_account` in `main.py`. Expiry is
judged from the record's `created_at` against the fixed 10-minute
window; the stored `expires_at` field is never consulted. The user
update and both `delete_one` calls match on the email alone. -/
def verify_user_account (email otp : String) (now : Time) (db : DB) : Resp × DB :=
  match db.otps.find? (fun r => r.email == email && r.otp == some otp) with
  | none => (.httpError 400 "Incorrect OTP", db)
  | some r0 =>
    if now - r0.created_at > OTP_EXPIRY_MINUTES * 60 then
      (.httpError 400 "OTP has expired. Please request a new one",
        { db with otps := deleteFirst (fun r => r.email == r0.email) db.otps })
    else
      match db.users.find? (fun u => u.email == r0.email) with
      | none => (.httpError 404 "User not found", db)
      | some u =>
        (.ok "Account verified successfully",
          { db with
            users := updateFirst (fun v => v.email == u.email)
              (fun v => { v with is_verified := true, updated_at := now })
              db.users,
            otps := deleteFirst (fun r => r.email == r0.email) db.otps })

/-- Helper running Mongo `find_one` with sort `created_at` descending:
keeps the record with the greatest `created_at`, the earliest stored
one on ties. -/
def latestOf : Option OTPRec → List OTPRec → Option OTPRec
  | acc, [] => acc
  | none, r :: rs => latestOf (some r) rs
  | some b, r :: rs =>
      latestOf (some (if r.created_at > b.created_at then r else b)) rs

/-- The `find_one({email}, sort created_at descending)` lookup of
`resend_otp_service`: it matches on the email alone, so password-reset
token documents are candidates too. -/
def findLatestOtp (email : String) (db : DB) : Option OTPRec :=
  latestOf none (db.otps.filter (fun r => r.email == email))

/-- Seconds of the resend minimum interval in `resend_otp_service`. -/
def RESEND_MIN_INTERVAL : Int := 60

/-- The issuance half of `resend_otp_service`: `delete_many` on the
email alone, insert the new OTP document, then the call
`send_email_otp(subject=..., body=..., receiver=...)` raises
`TypeError`, because the function defined in `auth/mail.py` has the
signature `send_email_otp(receiver_email, otp_code, expiry_minutes,
user_name)`; the success return after it is unreachable. -/
def resendIssue (email : String) (now : Time) (otp_code : String)
    (nextOid : Nat) (db : DB) : Resp × DB :=
  let newRec : OTPRec :=
    { oid := nextOid, email := email, otp := some otp_code, token := none,
      rectype := none, created_at := now, expires_at := some (now + 5 * 60),
      is_used := false }
  (.pyError "TypeError" "send_email_otp got an unexpected keyword argument subject",
    { db with otps := db.otps.filter (fun r => !(r.email == email)) ++ [newRec] })

/-- `resend_otp_service` from `auth/service.py`. The fresh OTP code and
Mongo `_id` arrive as parameters. The only rate limiting is the
60-second minimum interval against the latest record for the email;
there is no per-window resend counter. -/
def resend_otp_service (email : String) (now : Time) (otp_code : String)
    (nextOid : Nat) (db : DB) : Resp × DB :=
  match db.users.find? (fun u => u.email == email) with
  | none => (.httpError 404 "User not found", db)
  | some _ =>
    match findLatestOtp email db with
    | some last =>
      if now - last.created_at < RESEND_MIN_INTERVAL then
        (.httpError 429 "Please wait before requesting another OTP", db)
      else resendIssue email now otp_code nextOid db
    | none => resendIssue email now otp_code nextOid db

/-- The generic response body of `request_password_reset`. -/
def RESET_GENERIC_MESSAGE : String :=
  "If an account with that email exists, a password reset link has been sent."

/-- The issuance half of `request_password_reset`: `update_many` marks
prior unused reset tokens used, the new token document is inserted, and
then the same broken `send_email_otp(subject=..., body=...,
receiver=...)` call raises `TypeError` before the generic success
message can be returned. -/
def requestResetIssue (email : String) (now : Time) (tok : String)
    (nextOid : Nat) (db : DB) : Resp × DB :=
  let invalidated := db.otps.map (fun r =>
    if r.email == email && !r.is_used && r.rectype == some "PASSWORD_RESET" then
      { r with is_used := true }
    else r)
  let newRec : OTPRec :=
    { oid := nextOid, email := email, otp := none, token := some tok,
      rectype := some "PASSWORD_RESET", created_at := now,
      expires_at := some (now + 3600), is_used := false }
  (.pyError "TypeError" "send_email_otp got an unexpected keyword argument subject",
    { db with otps := invalidated ++ [newRec] })

/-- `request_password_reset` from `auth/service.py`. The fresh token and
Mongo `_id` arrive as parameters. -/
def request_password_reset (email : String) (now : Time) (tok : String)
    (nextOid : Nat) (db : DB) : Resp × DB :=
  match db.users.find? (fun u => u.email == email) with
  | none => (.ok RESET_GENERIC_MESSAGE, db)
  | some _ =>
    match latestOf none (db.otps.filter
        (fun r => r.email == email && r.rectype == some "PASSWORD_RESET")) with
    | some last =>
      if now - last.created_at < 5 * 60 then (.ok RESET_GENERIC_MESSAGE, db)
      else requestResetIssue email now tok nextOid db
    | none => requestResetIssue email now tok nextOid db

/-- `reset_user_password` from `auth/service.py`: the token-confirmed
password reset. -/
def reset_user_password (token new_password : String) (now : Time)
    (db : DB) : Resp × DB :=
  match db.otps.find?
      (fun r => r.token == some token && r.rectype == some "PASSWORD_RESET") with
  | none => (.httpError 400 "Invalid or expired token.", db)
  | some tr =>
    if tr.is_used then (.httpError 400 "Token already used.", db)
    else
      match tr.expires_at with
      | none => (.pyError "KeyError" "expires_at", db)
      | some expiry =>
        if now > expiry then (.httpError 400 "Invalid or expired token.", db)
        else
          match db.users.find? (fun u => u.email == tr.email) with
          | none => (.httpError 404 "User not found.", db)
          | some u =>
            (.ok "Password successfully reset.",
              { db with
                users := updateFirst (fun v => v.uid == u.uid)
                  (fun v => { v with
                    password_hash := hash_password new_password,
                    updated_at := now }) db.users,
                otps := updateFirst (fun r => r.oid == tr.oid)
                  (fun r => { r with is_used := true }) db.otps })

/-- The `/reset_password` route in `main.py`: updates the password given
only the email, with no token, OTP, `is_used` or expiry check, then
runs `delete_one` on the `otp-data` collection by email. -/
def reset_password (email new_password : String) (now : Time)
    (db : DB) : Resp × DB :=
  match db.users.find? (fun u => u.email == email) with
  | none => (.httpError 404 "User not found", db)
  | some _ =>
    (.ok "Password reset successfully",
      { db with
        users := updateFirst (fun u => u.email == email)
          (fun u => { u with
            password_hash := hash_password new_password,
            updated_at := now }) db.users,
        otps := deleteFirst (fun r => r.email == email) db.otps })

/-- The `/login` route `login_user` in `main.py`. The user returned by
`get_user_via_username` or `get_user_via_email` is the serialized
dictionary, which has no `password_hash` key, so for every existing
user the subscript `user["password_hash"]` raises `KeyError` before
`verify_password` can run; the route contains no `is_verified` check at
all, and a missing user yields 401. -/
def login_user (username password : String) (db : DB) : Resp :=
  match (get_user_via_username username db).orElse
      (fun _ => get_user_via_email username db) with
  | none => .httpError 401 "Incorrect username or password"
  | some _ => .pyError "KeyError" "password_hash"

/-- Case-insensitive view of an email address: the character sequence
lowered as by Python `str.lower()` on ASCII. -/
def emailLower (s : String) : List Char :=
  s.data.map Char.toLower

/-- Fixture: a stored, verified user record. -/
def adaUser : UserRec :=
  { uid := 1, firstname := "Ada", lastname := "Obi", username := "ada",
    email := "a@x.com", password_hash := hash_password "Secret123",
    is_verified := true, created_at := 0, updated_at := 0, last_used := 0 }

/-- Fixture: a stored, unverified user record. -/
def bobUser : UserRec :=
  { uid := 2, firstname := "Bob", lastname := "Eze", username := "bob",
    email := "b@x.com", password_hash := hash_password "Secret123",
    is_verified := false, created_at := 0, updated_at := 0, last_used := 0 }

/-- Fixture: a signup OTP record for `b@x.com`, exactly as
`resend_otp_service` stores it at time 0 (expiry five minutes out). -/
def bobOtp : OTPRec :=
  { oid := 10, email := "b@x.com", otp := some "123456", token := none,
    rectype := none, created_at := 0, expires_at := some 300,
    is_used := false }

/-- Fixture: a password-reset token record for `a@x.com`, exactly as
`request_password_reset` stores it at time 0 (expiry one hour out). -/
def adaResetTok : OTPRec :=
  { oid := 11, email := "a@x.com", otp := none, token := some "tok-1",
    rectype := some "PASSWORD_RESET", created_at := 0,
    expires_at := some 3600, is_used := false }

/-- Fixture: six consecutive resend calls for `b@x.com`, each spaced 61
seconds after the previous one (beyond the 60-second minimum interval),
starting from a store with the user and no OTP records. -/
def c6_r1 : Resp × DB :=
  resend_otp_service "b@x.com" 0 "111111" 21 { users := [bobUser], otps := [] }

def c6_r2 : Resp × DB := resend_otp_service "b@x.com" 61 "222222" 22 c6_r1.2

def c6_r3 : Resp × DB := resend_otp_service "b@x.com" 122 "333333" 23 c6_r2.2

def c6_r4 : Resp × DB := resend_otp_service "b@x.com" 183 "444444" 24 c6_r3.2

def c6_r5 : Resp × DB := resend_otp_service "b@x.com" 244 "555555" 25 c6_r4.2

def c6_r6 : Resp × DB := resend_otp_service "b@x.com" 305 "666666" 26 c6_r5.2

/-! Helper lemmas about the Mongo collection operations. -/

/-- Mapping a guarded rewrite over a list with no matching element is
the identity. -/
theorem map_ite_id {α : Type} (p : α → Bool) (f : α → α) :
    ∀ l : List α, (∀ a ∈ l, p a = false) →
      l.map (fun v => if p v then f v else v) = l := by
  intro l
  induction l with
  | nil => intro _; rfl
  | cons x xs ih =>
    intro h
    have hx : p x = false := h x (List.mem_cons_self x xs)
    have hxs := ih (fun a ha => h a (List.mem_cons_of_mem x ha))
    simp [hx, hxs]

/-- When at most one element matches, `update_one` behaves like a
pointwise guarded rewrite of the whole collection. -/
theorem updateFirst_eq_map {α : Type} (p : α → Bool) (f : α → α) :
    ∀ l : List α, l.countP p ≤ 1 →
      updateFirst p f l = l.map (fun v => if p v then f v else v) := by
  intro l
  induction l with
  | nil => intro _; rfl
  | cons x xs ih =>
    intro h
    rw [List.countP_cons] at h
    by_cases hx : p x
    · have h0 : xs.countP p = 0 := by
        rw [if_pos hx] at h; omega
      have hall : ∀ a ∈ xs, p a = false := by
        intro a ha
        have := List.countP_eq_zero.1 h0 a ha
        simpa using this
      simp [updateFirst, hx, map_ite_id p f xs hall]
    · have hx' : p x = false := by simpa using hx
      have h1 : xs.countP p ≤ 1 := by
        rw [hx'] at h; omega
      simp [updateFirst, hx', ih h1]

/-- `delete_one` removes exactly one record when a match exists. -/
theorem length_deleteFirst {α : Type} (p : α → Bool) :
    ∀ l : List α, (∃ x ∈ l, p x = true) →
      (deleteFirst p l).length + 1 = l.length := by
  intro l
  induction l with
  | nil =>
    rintro ⟨x, hx, -⟩
    cases hx
  | cons y ys ih =>
    rintro ⟨x, hx, hpx⟩
    by_cases hy : p y
    · simp [deleteFirst, hy]
    · have hx' : x ∈ ys := by
        rcases List.mem_cons.1 hx with h | h
        · subst h; exact absurd hpx hy
        · exact h
      have := ih ⟨x, hx', hpx⟩
      simp [deleteFirst, hy]
      omega

/-- Whatever `latestOf` returns is the accumulator or one of the
candidates. -/
theorem latestOf_mem :
    ∀ (l : List OTPRec) (acc : Option OTPRec) (r : OTPRec),
      latestOf acc l = some r → acc = some r ∨ r ∈ l := by
  intro l
  induction l with
  | nil =>
    intro acc r h
    cases acc with
    | none => exact Or.inl h
    | some b => exact Or.inl h
  | cons x xs ih =>
    intro acc r h
    cases acc with
    | none =>
      rcases ih (some x) r h with h1 | h1
      · have hxr : x = r := Option.some_inj.1 h1
        subst hxr
        exact Or.inr (List.mem_cons_self x xs)
      · exact Or.inr (List.mem_cons_of_mem x h1)
    | some b =>
      rcases ih _ r h with h1 | h1
      · by_cases hc : x.created_at > b.created_at
        · rw [if_pos hc] at h1
          have hxr : x = r := Option.some_inj.1 h1
          subst hxr
          exact Or.inr (List.mem_cons_self x xs)
        · rw [if_neg hc] at h1
          exact Or.inl h1
      · exact Or.inr (List.mem_cons_of_mem x h1)

/-- The record chosen by the sorted `find_one` of `resend_otp_service`
belongs to the collection and has the looked-up email. -/
theorem findLatestOtp_mem (email : String) (db : DB) (r : OTPRec)
    (h : findLatestOtp email db = some r) : r ∈ db.otps ∧ r.email = email := by
  unfold findLatestOtp at h
  rcases latestOf_mem _ none r h with h1 | h1
  · cases h1
  · have h2 := List.mem_filter.1 h1
    exact ⟨h2.1, by simpa using h2.2⟩

/-! Claim C1. -/

/-- C1: the `/reset_password` route, given only an email and a new
password, sets the matching user record's `password_hash` to the hash
of the new password and bumps `updated_at`, checking no reset token,
OTP, `is_used` flag or expiry (its outcome and its effect on the user
collection are identical for every content of the OTP store), deletes
the first OTP-collection record for that email, and fails 404 Not Found
for a non-existent email. -/
theorem c1_reset_password_updates_unconditionally (db : DB) (now : Time)
    (email pw : String) :
    (∀ u, db.users.find? (fun v => v.email == email) = some u →
      db.users.countP (fun v => v.email == email) ≤ 1 →
      (reset_password email pw now db).1 = .ok "Password reset successfully" ∧
      (∀ v ∈ (reset_password email pw now db).2.users, v.email = email →
        v.password_hash = hash_password pw ∧ v.updated_at = now) ∧
      (reset_password email pw now db).2.otps
        = deleteFirst (fun r => r.email == email) db.otps ∧
      ∀ otps2 : List OTPRec,
        (reset_password email pw now { users := db.users, otps := otps2 }).1
          = (reset_password email pw now db).1 ∧
        (reset_password email pw now { users := db.users, otps := otps2 }).2.users
          = (reset_password email pw now db).2.users) ∧
    (db.users.find? (fun v => v.email == email) = none →
      reset_password email pw now db = (.httpError 404 "User not found", db)) := by
  constructor
  · intro u hu huniq
    refine ⟨?_, ?_, ?_, ?_⟩
    · simp [reset_password, hu]
    · intro v hv hve
      simp only [reset_password, hu] at hv
      rw [updateFirst_eq_map _ _ _ huniq] at hv
      rcases List.mem_map.1 hv with ⟨w, hw, hvw⟩
      by_cases hpw : w.email == email
      · rw [if_pos hpw] at hvw
        subst hvw
        exact ⟨rfl, rfl⟩
      · rw [if_neg hpw] at hvw
        subst hvw
        exact absurd (by simp [hve]) hpw
    · simp [reset_password, hu]
    · intro otps2
      constructor <;> simp [reset_password, hu]
  · intro h
    simp [reset_password, h]

/-- Witness for C1: the success side on a one-user store holding an
unrelated OTP record, and the 404 side on the empty store. -/
theorem c1_witness :
    (reset_password "a@x.com" "NewPass456" 50
        { users := [adaUser], otps := [bobOtp] }).1
      = .ok "Password reset successfully" ∧
    reset_password "a@x.com" "NewPass456" 50 { users := [], otps := [] }
      = (.httpError 404 "User not found", { users := [], otps := [] }) := by
  constructor
  · exact ((c1_reset_password_updates_unconditionally
      { users := [adaUser], otps := [bobOtp] } 50 "a@x.com" "NewPass456").1
      adaUser (by decide) (by decide)).1
  · exact (c1_reset_password_updates_unconditionally
      { users := [], otps := [] } 50 "a@x.com" "NewPass456").2 (by decide)

/-! Claim C2. -/

/-- C2: at this concrete store the user `ada` is verified and
`Secret123` is the correct password, yet `/login` with exactly those
credentials evaluates to a `KeyError` on the missing `password_hash`
key of the serialized user instead of an access token; the route
contains no `is_verified` check, and no call to it can authenticate
anyone. -/
theorem c2_login_crashes_on_password_hash :
    adaUser.is_verified = true ∧
    verify_password "Secret123" adaUser.password_hash = true ∧
    login_user "ada" "Secret123" { users := [adaUser], otps := [] }
      = .pyError "KeyError" "password_hash" := by
  decide

/-! Claim C3. -/

/-- C3 counterexample: after `ConfirmReset(token, pw1)` succeeds, the
second `ConfirmReset(token, pw2)` is rejected with HTTP 400 and the
dedicated detail `Token already used.`, which differs from the
`Invalid or expired token.` error the claim names. -/
theorem c3_counterexample :
    (reset_user_password "tok-1" "pw1" 10
        { users := [adaUser], otps := [adaResetTok] }).1
      = .ok "Password successfully reset." ∧
    (reset_user_password "tok-1" "pw2" 20
        (reset_user_password "tok-1" "pw1" 10
          { users := [adaUser], otps := [adaResetTok] }).2).1
      = .httpError 400 "Token already used." ∧
    decide ((reset_user_password "tok-1" "pw2" 20
        (reset_user_password "tok-1" "pw1" 10
          { users := [adaUser], otps := [adaResetTok] }).2).1
      = .httpError 400 "Invalid or expired token.") = false := by
  decide

/-- C3 amended: with a single stored reset-token record, unused and
unexpired, the first ConfirmReset succeeds and stores the hash of `pw1`
in the user's record; the second ConfirmReset with the same token fails
with HTTP 400 and the detail `Token already used.` (the dedicated
already-used error, not the generic invalid-or-expired one) and leaves
the store untouched, so the password remains `pw1`'s hash. -/
theorem c3_reset_token_single_use (users : List UserRec) (tr : OTPRec)
    (u : UserRec) (tok pw1 pw2 : String) (now1 now2 expiry : Time)
    (htok : tr.token = some tok) (htype : tr.rectype = some "PASSWORD_RESET")
    (hunused : tr.is_used = false) (hexp : tr.expires_at = some expiry)
    (hnow : now1 ≤ expiry)
    (hu : users.find? (fun v => v.email == tr.email) = some u)
    (huid : users.countP (fun v => v.uid == u.uid) ≤ 1) :
    (reset_user_password tok pw1 now1 { users := users, otps := [tr] }).1
      = .ok "Password successfully reset." ∧
    (∀ v ∈ (reset_user_password tok pw1 now1
        { users := users, otps := [tr] }).2.users,
      v.uid = u.uid →
        v.password_hash = hash_password pw1 ∧ v.updated_at = now1) ∧
    (reset_user_password tok pw2 now2
        (reset_user_password tok pw1 now1
          { users := users, otps := [tr] }).2).1
      = .httpError 400 "Token already used." ∧
    (reset_user_password tok pw2 now2
        (reset_user_password tok pw1 now1
          { users := users, otps := [tr] }).2).2
      = (reset_user_password tok pw1 now1
          { users := users, otps := [tr] }).2 := by
  have hptr : (tr.token == some tok && tr.rectype == some "PASSWORD_RESET") = true := by
    simp [htok, htype]
  have hfind : ([tr].find?
      (fun r => r.token == some tok && r.rectype == some "PASSWORD_RESET")) = some tr :=
    List.find?_cons_of_pos _ hptr
  have hs1 : reset_user_password tok pw1 now1 { users := users, otps := [tr] }
      = (.ok "Password successfully reset.",
         { users := updateFirst (fun v => v.uid == u.uid)
             (fun v => { v with
               password_hash := hash_password pw1,
               updated_at := now1 }) users,
           otps := [{ tr with is_used := true }] }) := by
    simp only [reset_user_password, hfind, hunused, hexp, hu]
    rw [if_neg (by simp), if_neg (not_lt.2 hnow)]
    simp [updateFirst, hexp]
  have hptr2 : (OTPRec.token { tr with is_used := true } == some tok
      && OTPRec.rectype { tr with is_used := true } == some "PASSWORD_RESET") = true := by
    simp [htok, htype]
  have hfind2 : ([{ tr with is_used := true }].find?
      (fun r => r.token == some tok && r.rectype == some "PASSWORD_RESET"))
      = some { tr with is_used := true } :=
    List.find?_cons_of_pos _ hptr2
  have hs2 : reset_user_password tok pw2 now2
      (reset_user_password tok pw1 now1 { users := users, otps := [tr] }).2
      = (.httpError 400 "Token already used.",
         (reset_user_password tok pw1 now1 { users := users, otps := [tr] }).2) := by
    rw [hs1]
    simp only [reset_user_password, hfind2]
    simp
  refine ⟨by rw [hs1], ?_, by rw [hs2], by rw [hs2]⟩
  intro v hv hvu
  rw [hs1] at hv
  simp only at hv
  rw [updateFirst_eq_map _ _ _ huid] at hv
  rcases List.mem_map.1 hv with ⟨w, hw, hvw⟩
  by_cases hpw : w.uid == u.uid
  · rw [if_pos hpw] at hvw
    subst hvw
    exact ⟨rfl, rfl⟩
  · rw [if_neg hpw] at hvw
    subst hvw
    exact absurd (by simp [hvu]) hpw

/-- Witness for C3 at a concrete store: one user, one fresh reset
token. -/
theorem c3_witness :
    (reset_user_password "tok-1" "NewPass456" 10
        { users := [adaUser], otps := [adaResetTok] }).1
      = .ok "Password successfully reset." ∧
    (reset_user_password "tok-1" "OtherPass" 20
        (reset_user_password "tok-1" "NewPass456" 10
          { users := [adaUser], otps := [adaResetTok] }).2).1
      = .httpError 400 "Token already used." := by
  have h := c3_reset_token_single_use [adaUser] adaResetTok adaUser
    "tok-1" "NewPass456" "OtherPass" 10 20 3600
    (by decide) (by decide) (by decide) (by decide) (by decide)
    (by decide) (by decide)
  exact ⟨h.1, h.2.2.1⟩

/-! Claim C4. -/

/-- C4: with the sole OTP-collection record for the email being the
valid, unexpired `(email, otp)` pair and the user present, the first
Verify call succeeds and flips the user's `is_verified` to true, the
OTP record is consumed (the collection is left empty), and a second
Verify call with the same OTP at any later time fails
400 `Incorrect OTP`. -/
theorem c4_verify_at_most_once (users : List UserRec) (r0 : OTPRec)
    (u : UserRec) (otp : String) (now now2 : Time)
    (hro : r0.otp = some otp)
    (hfresh : now - r0.created_at ≤ OTP_EXPIRY_MINUTES * 60)
    (hu : users.find? (fun v => v.email == r0.email) = some u)
    (huniq : users.countP (fun v => v.email == u.email) ≤ 1) :
    (verify_user_account r0.email otp now { users := users, otps := [r0] }).1
      = .ok "Account verified successfully" ∧
    (∀ v ∈ (verify_user_account r0.email otp now
        { users := users, otps := [r0] }).2.users,
      v.email = u.email → v.is_verified = true) ∧
    (verify_user_account r0.email otp now
        { users := users, otps := [r0] }).2.otps = [] ∧
    (verify_user_account r0.email otp now2
        (verify_user_account r0.email otp now
          { users := users, otps := [r0] }).2).1
      = .httpError 400 "Incorrect OTP" ∧
    (verify_user_account r0.email otp now2
        (verify_user_account r0.email otp now
          { users := users, otps := [r0] }).2).2
      = (verify_user_account r0.email otp now
          { users := users, otps := [r0] }).2 := by
  have hptr : (r0.email == r0.email && r0.otp == some otp) = true := by
    simp [hro]
  have hfind : ([r0].find?
      (fun r => r.email == r0.email && r.otp == some otp)) = some r0 :=
    List.find?_cons_of_pos _ hptr
  have hs1 : verify_user_account r0.email otp now { users := users, otps := [r0] }
      = (.ok "Account verified successfully",
         { users := updateFirst (fun v => v.email == u.email)
             (fun v => { v with is_verified := true, updated_at := now })
             users,
           otps := [] }) := by
    simp only [verify_user_account, hfind, hu]
    rw [if_neg (not_lt.2 hfresh)]
    simp [deleteFirst]
  have hs2 : verify_user_account r0.email otp now2
      (verify_user_account r0.email otp now { users := users, otps := [r0] }).2
      = (.httpError 400 "Incorrect OTP",
         (verify_user_account r0.email otp now
           { users := users, otps := [r0] }).2) := by
    rw [hs1]
    simp [verify_user_account]
  refine ⟨by rw [hs1], ?_, by rw [hs1], by rw [hs2], by rw [hs2]⟩
  intro v hv hvu
  rw [hs1] at hv
  simp only at hv
  rw [updateFirst_eq_map _ _ _ huniq] at hv
  rcases List.mem_map.1 hv with ⟨w, hw, hvw⟩
  by_cases hpw : w.email == u.email
  · rw [if_pos hpw] at hvw
    subst hvw
    rfl
  · rw [if_neg hpw] at hvw
    subst hvw
    exact absurd (by simp [hvu]) hpw

/-- Witness for C4: the unverified user `bob` and his freshly issued
OTP, verified 100 seconds after issuance and again at 400 seconds. -/
theorem c4_witness :
    (verify_user_account "b@x.com" "123456" 100
        { users := [bobUser], otps := [bobOtp] }).1
      = .ok "Account verified successfully" ∧
    (verify_user_account "b@x.com" "123456" 400
        (verify_user_account "b@x.com" "123456" 100
          { users := [bobUser], otps := [bobOtp] }).2).1
      = .httpError 400 "Incorrect OTP" := by
  have h := c4_verify_at_most_once [bobUser] bobOtp bobUser "123456" 100 400
    (by decide) (by decide) (by decide) (by decide)
  exact ⟨h.1, h.2.2.2.1⟩

/-! Claim C5. -/

/-- C5 counterexample: `bobOtp` was issued at time 0 with
`expires_at = 300` (the five-minute TTL `resend_otp_service` stores),
yet a Verify call at time 400, which is past `t + TTL` and past the
stored `otp_expires_at`, succeeds instead of failing `OTPExpired`: the
route compares against `created_at` plus a fixed 10-minute window and
never reads `expires_at`. -/
theorem c5_counterexample :
    bobOtp.created_at = 0 ∧ bobOtp.expires_at = some 300 ∧
    (verify_user_account "b@x.com" "123456" 400
        { users := [bobUser], otps := [bobOtp] }).1
      = .ok "Account verified successfully" ∧
    decide ((verify_user_account "b@x.com" "123456" 400
        { users := [bobUser], otps := [bobOtp] }).1
      = .httpError 400 "OTP has expired. Please request a new one") = false := by
  decide

/-- C5 amended: a Verify call whose submitted OTP matches a stored
record fails `OTPExpired` exactly when `now` is more than 10 fixed
minutes past the record's `created_at` (the stored `expires_at` is
ignored), and then deletes one OTP-collection record for that email; a
submitted OTP matching no record fails `Incorrect OTP` instead, so no
expiry verdict is reached regardless of the stored record's age. -/
theorem c5_expiry_judged_from_created_at (db : DB) (email otp : String)
    (now : Time) (r0 : OTPRec)
    (hfind : db.otps.find? (fun r => r.email == email && r.otp == some otp)
      = some r0)
    (hold : now - r0.created_at > OTP_EXPIRY_MINUTES * 60) :
    verify_user_account email otp now db
      = (.httpError 400 "OTP has expired. Please request a new one",
         { db with otps := deleteFirst (fun r => r.email == r0.email) db.otps }) ∧
    ((verify_user_account email otp now db).2.otps).length + 1
      = db.otps.length ∧
    ∀ badOtp : String,
      db.otps.find? (fun r => r.email == email && r.otp == some badOtp) = none →
      verify_user_account email badOtp now db
        = (.httpError 400 "Incorrect OTP", db) := by
  have hmain : verify_user_account email otp now db
      = (.httpError 400 "OTP has expired. Please request a new one",
         { db with otps := deleteFirst (fun r => r.email == r0.email) db.otps }) := by
    simp only [verify_user_account, hfind]
    rw [if_pos hold]
  refine ⟨hmain, ?_, ?_⟩
  · rw [hmain]
    refine length_deleteFirst _ db.otps ⟨r0, List.mem_of_find?_eq_some hfind, ?_⟩
    simp
  · intro badOtp hnone
    simp [verify_user_account, hnone]

/-- Witness for C5: `bob` tries the correct OTP 700 seconds after
issuance (past the 10-minute window) and the wrong OTP `999999`. -/
theorem c5_witness :
    verify_user_account "b@x.com" "123456" 700
        { users := [bobUser], otps := [bobOtp] }
      = (.httpError 400 "OTP has expired. Please request a new one",
         { users := [bobUser], otps := [] }) ∧
    verify_user_account "b@x.com" "999999" 700
        { users := [bobUser], otps := [bobOtp] }
      = (.httpError 400 "Incorrect OTP",
         { users := [bobUser], otps := [bobOtp] }) := by
  have h := c5_expiry_judged_from_created_at
    { users := [bobUser], otps := [bobOtp] } "b@x.com" "123456" 700 bobOtp
    (by decide) (by decide)
  refine ⟨?_, h.2.2 "999999" (by decide)⟩
  rw [h.1]
  decide

/-! Claims C6 and C9 share the fact that a spaced-out resend call
reaches the issuance step. -/

/-- If the user exists and every stored record for the email is at
least the minimum interval old, `resend_otp_service` passes its only
rate-limit check and reaches the issuance step. -/
theorem resend_reaches_issue (db : DB) (email otp_code : String)
    (now : Time) (nextOid : Nat) (u : UserRec)
    (hufind : db.users.find? (fun v => v.email == email) = some u)
    (hspaced : ∀ s ∈ db.otps, s.email = email →
      RESEND_MIN_INTERVAL ≤ now - s.created_at) :
    resend_otp_service email now otp_code nextOid db
      = resendIssue email now otp_code nextOid db := by
  simp only [resend_otp_service, hufind]
  cases hlatest : findLatestOtp email db with
  | none => rfl
  | some last =>
    have hm := findLatestOtp_mem email db last hlatest
    simp [not_lt.2 (hspaced last hm.1 hm.2)]

/-! Claim C6. -/

/-- C6 counterexample: six resend calls for `b@x.com` within one hour,
each spaced 61 seconds apart (past the minimum interval), with the
spec's example bound `MAX_PER_WINDOW = 5`: the sixth call is not
rejected `TooManyRequests`, and neither is any other; every call that
passes the interval check replaces the stored OTP and then terminates
with the server-side `TypeError` from the broken mail call, so no
per-window counter ever rejects and no call returns success. -/
theorem c6_counterexample :
    c6_r1.1 = .pyError "TypeError"
      "send_email_otp got an unexpected keyword argument subject" ∧
    c6_r2.1 = c6_r1.1 ∧ c6_r3.1 = c6_r1.1 ∧ c6_r4.1 = c6_r1.1 ∧
    c6_r5.1 = c6_r1.1 ∧ c6_r6.1 = c6_r1.1 ∧
    decide (c6_r6.1
      = .httpError 429 "Please wait before requesting another OTP") = false := by
  decide

/-- C6 amended: resend is rate-limited only by the 60-second minimum
interval against the latest stored record for the email. A call whose
stored records are all at least 60 seconds old is never rejected
`TooManyRequests`, no matter how many resends preceded it inside any
window (it proceeds to the issuance step, which replaces the OTP and
ends in the mail-call `TypeError` rather than a success response),
while a call within 60 seconds of the latest record is rejected
429 `TooManyRequests`. -/
theorem c6_resend_has_no_window_counter (db : DB) (email otp_code : String)
    (now : Time) (nextOid : Nat) (u : UserRec)
    (hufind : db.users.find? (fun v => v.email == email) = some u)
    (hspaced : ∀ s ∈ db.otps, s.email = email →
      RESEND_MIN_INTERVAL ≤ now - s.created_at) :
    resend_otp_service email now otp_code nextOid db
      = resendIssue email now otp_code nextOid db ∧
    decide ((resend_otp_service email now otp_code nextOid db).1
      = .httpError 429 "Please wait before requesting another OTP") = false ∧
    ∀ (db2 : DB) (u2 : UserRec) (last : OTPRec),
      db2.users.find? (fun v => v.email == email) = some u2 →
      findLatestOtp email db2 = some last →
      now - last.created_at < RESEND_MIN_INTERVAL →
      resend_otp_service email now otp_code nextOid db2
        = (.httpError 429 "Please wait before requesting another OTP", db2) := by
  have hmain := resend_reaches_issue db email otp_code now nextOid u hufind hspaced
  refine ⟨hmain, ?_, ?_⟩
  · rw [hmain]
    rfl
  · intro db2 u2 last hufind2 hlatest hlt
    simp only [resend_otp_service, hufind2, hlatest]
    rw [if_pos hlt]

/-- Witness for C6: a resend 61 seconds after the stored OTP reaches
issuance, and a resend 59 seconds after a stored OTP is rejected. -/
theorem c6_witness :
    resend_otp_service "b@x.com" 61 "222222" 22
        { users := [bobUser], otps := [bobOtp] }
      = resendIssue "b@x.com" 61 "222222" 22
        { users := [bobUser], otps := [bobOtp] } ∧
    resend_otp_service "b@x.com" 61 "222222" 22
        { users := [bobUser], otps := [{ bobOtp with created_at := 2 }] }
      = (.httpError 429 "Please wait before requesting another OTP",
         { users := [bobUser], otps := [{ bobOtp with created_at := 2 }] }) := by
  have h := c6_resend_has_no_window_counter
    { users := [bobUser], otps := [bobOtp] } "b@x.com" "222222" 61 22 bobUser
    (by decide) (by decide)
  exact ⟨h.1, h.2.2 { users := [bobUser], otps := [{ bobOtp with created_at := 2 }] }
    bobUser { bobOtp with created_at := 2 } (by decide) (by decide) (by decide)⟩

/-! Claim C7. -/

/-- C7: a resend for an existing user with no stored OTP persists the
freshly generated OTP record and then terminates with the `TypeError`
raised by the broken `send_email_otp` call: the stored OTP was never
sent, yet it is not rolled back, and the caller receives an internal
error rather than a success or a retryable delivery-failure result. -/
theorem c7_resend_stores_otp_then_crashes :
    resend_otp_service "b@x.com" 0 "123456" 21 { users := [bobUser], otps := [] }
      = (.pyError "TypeError"
           "send_email_otp got an unexpected keyword argument subject",
         { users := [bobUser],
           otps := [{ oid := 21, email := "b@x.com", otp := some "123456",
                      token := none, rectype := none, created_at := 0,
                      expires_at := some 300, is_used := false }] }) := by
  decide

/-! Claim C8. -/

/-- C8: `RequestReset` on the registered email `b@x.com` terminates in
the `TypeError` from the broken mail call, while the same request on
the unregistered email `nobody@x.com` returns the generic success
message; the two responses differ, so the caller can tell a registered
email from an unregistered one. -/
theorem c8_request_reset_responses_differ :
    (request_password_reset "b@x.com" 0 "tok-9" 31
        { users := [bobUser], otps := [] }).1
      = .pyError "TypeError"
          "send_email_otp got an unexpected keyword argument subject" ∧
    (request_password_reset "nobody@x.com" 0 "tok-9" 31
        { users := [bobUser], otps := [] }).1
      = .ok RESET_GENERIC_MESSAGE ∧
    decide ((request_password_reset "b@x.com" 0 "tok-9" 31
        { users := [bobUser], otps := [] }).1
      = (request_password_reset "nobody@x.com" 0 "tok-9" 31
        { users := [bobUser], otps := [] }).1) = false := by
  decide

/-! Claim C9. -/

/-- C9 counterexample: the store holds the unused password-reset token
record `adaResetTok` for `a@x.com`; a signup-flow resend for that email
at time 100 deletes it outright (the post-state OTP collection holds
only the new signup OTP), so the reset token record is neither
preserved nor merely marked used. -/
theorem c9_counterexample :
    adaResetTok.rectype = some "PASSWORD_RESET" ∧
    adaResetTok.is_used = false ∧
    (resend_otp_service "a@x.com" 100 "123456" 21
        { users := [adaUser], otps := [adaResetTok] }).2.otps
      = [{ oid := 21, email := "a@x.com", otp := some "123456", token := none,
           rectype := none, created_at := 100, expires_at := some 400,
           is_used := false }] ∧
    decide (adaResetTok ∈ (resend_otp_service "a@x.com" 100 "123456" 21
        { users := [adaUser], otps := [adaResetTok] }).2.otps) = false := by
  decide

/-- C9 amended: the signup OTP resend deletes every OTP-collection
record for the email through its `delete_many` — password-reset token
records included: any stored `PASSWORD_RESET` record for the email is
gone from the store after a resend that passes the rate limit. -/
theorem c9_resend_deletes_reset_token_records (db : DB)
    (email otp_code : String) (now : Time) (nextOid : Nat)
    (u : UserRec) (r : OTPRec)
    (hufind : db.users.find? (fun v => v.email == email) = some u)
    (hr : r ∈ db.otps) (hre : r.email = email)
    (hrt : r.rectype = some "PASSWORD_RESET")
    (hspaced : ∀ s ∈ db.otps, s.email = email →
      RESEND_MIN_INTERVAL ≤ now - s.created_at) :
    decide (r ∈ (resend_otp_service email now otp_code nextOid db).2.otps)
      = false := by
  rw [resend_reaches_issue db email otp_code now nextOid u hufind hspaced,
    decide_eq_false_iff_not]
  intro hmem
  simp only [resendIssue] at hmem
  rcases List.mem_append.1 hmem with h1 | h1
  · have h2 := List.mem_filter.1 h1
    have h3 : (r.email == email) = false := by simpa using h2.2
    simp [hre] at h3
  · rw [List.mem_singleton] at h1
    rw [h1] at hrt
    simp at hrt

/-- Witness for C9: the concrete reset-token record of `a@x.com` is
gone after a resend at time 100. -/
theorem c9_witness :
    decide (adaResetTok ∈ (resend_otp_service "a@x.com" 100 "654321" 22
        { users := [adaUser], otps := [adaResetTok] }).2.otps) = false := by
  exact c9_resend_deletes_reset_token_records
    { users := [adaUser], otps := [adaResetTok] } "a@x.com" "654321" 100 22
    adaUser adaResetTok (by decide) (by decide) (by decide) (by decide)
    (by decide)

/-! Claim C10. -/

/-- C10: the store holds the user with email `a@x.com`; a signup with
email `A@x.com` — the same address up to letter case — is accepted
(`user_exists_email` is an exact-string count, so no
`Email already registered` rejection fires) and creates a second
record, leaving two stored users whose emails coincide
case-insensitively. -/
theorem c10_signup_accepts_case_variant_email :
    adaUser.email = "a@x.com" ∧
    user_exists_email "A@x.com" { users := [adaUser], otps := [] } = false ∧
    (sign_up_user "Ann" "Obi" "ann" "A@x.com" "Secret123" 50 7
        { users := [adaUser], otps := [] }).1
      = .ok "User created successfully!" ∧
    ((sign_up_user "Ann" "Obi" "ann" "A@x.com" "Secret123" 50 7
        { users := [adaUser], otps := [] }).2.users.map
      (fun v => emailLower v.email))
      = ["a@x.com".data, "a@x.com".data] := by
  decide
